import Mathlib

/-!
Verification of the request-handling / auth / audit pipeline of the
LLM_PEXPERIMENT Flask backend.

The development shallowly embeds the route handlers of `src/api_routes.py`
and `src/app.py`, the auth middleware of `src/auth_middleware.py`, the
document validator of `src/document_processor.py` and the policy analyzer
of `src/llm_engine/policy_analyzer.py` as executable Lean functions.
Database state is passed explicitly as lists of records; JSON responses are
values of `ApiResult`.  ORM models that the routes import from `.models`
but that are not present in the repository (Document, Query, AuditLog) are
modelled from the spec, as are the two external library primitives the
handlers delegate to (werkzeug password hashing, JWT issuance); each such
definition carries a doc comment saying so.
-/

namespace LLMP

/-- A JSON API response as produced by the Flask handlers: either a success
payload together with its HTTP status code, or an error status code with the
string carried in the `error` field of the JSON body. -/
inductive ApiResult (α : Type) where
  | ok (status : Nat) (payload : α)
  | err (status : Nat) (error : String)
  deriving Repr, DecidableEq

/-- The HTTP status code of a response. -/
def ApiResult.statusCode {α : Type} : ApiResult α → Nat
  | .ok s _ => s
  | .err s _ => s

namespace PasswordManager

/-- Lower-case hexadecimal digit character for a value below 16. -/
def hexDigitChar (n : Nat) : Char :=
  if n < 10 then Char.ofNat (48 + n) else Char.ofNat (87 + n)

/-- Little-endian, fixed-width hexadecimal rendering of a natural number. -/
def toHexLE : Nat → Nat → List Char
  | 0, _ => []
  | w + 1, n => hexDigitChar (n % 16) :: toHexLE w (n / 16)

/-- Fixed-width (8 hex digits per character) encoding of a string's
characters; auxiliary to the digest model below. -/
def hexEncode : List Char → List Char
  | [] => []
  | c :: rest => toHexLE 8 c.toNat ++ hexEncode rest

/-- Modelled from the spec: the PBKDF2-SHA256 digest computed by werkzeug
(`generate_password_hash(..., method='pbkdf2:sha256', salt_length=16)` in
`PasswordManager.hash_password`, `generate_password_hash(password)` in
`User.set_password`) is external library code, not part of `src/`.  §4.3
specifies it as a salted, computationally-hard one-way function; the model
realizes that contract executably as the fixed-width hexadecimal encoding of
salt followed by password, which is collision-free by construction (the
idealization of a collision-resistant digest). -/
def pbkdf2_digest (salt password : String) : List Char :=
  hexEncode salt.data ++ hexEncode password.data

/-- Modelled from the spec: werkzeug's hash format `method$salt$digest`
(external library).  `PasswordManager.hash_password` / `User.set_password`
store exactly this string.  The random salt drawn by the library is passed
explicitly. -/
def generate_password_hash (salt password : String) : String :=
  ⟨"pbkdf2:sha256:600000".data ++ '$' :: (salt.data ++ '$' :: pbkdf2_digest salt password)⟩

/-- Split a character list at every occurrence of `sep` (the list-level
counterpart of the `pwhash.split('$')` parse in werkzeug's
`check_password_hash`). -/
def splitOnChar (sep : Char) : List Char → List (List Char)
  | [] => [[]]
  | c :: rest =>
    if c = sep then
      [] :: splitOnChar sep rest
    else
      match splitOnChar sep rest with
      | [] => [[c]]
      | h :: t => (c :: h) :: t

/-- Modelled from the spec: werkzeug's `check_password_hash` (external
library), called by `PasswordManager.verify_password` and
`User.check_password`: parse the stored value as `method$salt$hashval` and
compare the digest recomputed from the candidate password against
`hashval`; any other shape verifies as false. -/
def check_password_hash (pwhash password : String) : Bool :=
  match splitOnChar '$' pwhash.data with
  | [methodPart, saltPart, hashval] =>
    methodPart == "pbkdf2:sha256:600000".data &&
      pbkdf2_digest ⟨saltPart⟩ password == hashval
  | _ => false

/-- `PasswordManager.is_password_strong` (auth_middleware.py 116-127),
transcribed clause for clause: minimum length 8, at least one upper-case
letter, at least one digit, at least one character from the fixed symbol
set. -/
def is_password_strong (password : String) : Bool :=
  if password.length < 8 then false
  else if !password.data.any Char.isUpper then false
  else if !password.data.any Char.isDigit then false
  else if !password.data.any (fun c => "!@#$%^&*()_+-=[]\x7b\x7d|;:,.<>?".data.contains c) then false
  else true

/-- The strength predicate as the spec words it (§4.3): minimum length,
at least one uppercase letter, one digit, and one symbol from the fixed
set — a plain conjunction, no partial-credit scoring. -/
def StrongSpec (password : String) : Prop :=
  8 ≤ password.length ∧
  (∃ c ∈ password.data, c.isUpper = true) ∧
  (∃ c ∈ password.data, c.isDigit = true) ∧
  (∃ c ∈ password.data, c ∈ "!@#$%^&*()_+-=[]\x7b\x7d|;:,.<>?".data)

instance (password : String) : Decidable (StrongSpec password) := by
  unfold StrongSpec; infer_instance

end PasswordManager

/-- Modelled from the spec: outcome of `flask_jwt_extended`'s token
verification (`verify_jwt_in_request` / `@jwt_required`, external library):
a missing, malformed or expired token makes verification raise (`fails`);
a valid token yields the subject identity and the extra claims of the
token (§3 "Token": subject identifier and role claim). -/
inductive Jwt where
  | fails (reason : String)
  | succeeds (identity : Nat) (claims : List (String × String))
  deriving Repr, DecidableEq

/-- Modelled from the spec: `flask_jwt_extended.create_access_token`
(external library) issues a signed bearer token for the given identity;
modelled as an injective tagging of the identity. -/
def create_access_token (identity : Nat) : String :=
  "jwt:" ++ toString identity

/-- Modelled from the spec: the `@jwt_required()` gate (external library):
reject an invalid token with 401 before the handler runs, otherwise hand
the authenticated identity to the handler (§4.1). -/
def jwt_required_gate {α : Type} (jwt : Jwt) (handler : Nat → ApiResult α) : ApiResult α :=
  match jwt with
  | .fails _ => .err 401 "Unauthorized"
  | .succeeds identity _ => handler identity

namespace ApiRoutes

/-- The `User` ORM model (`src/models/user.py`): id, unique username, unique
email, password hash, role, creation time (rendered as its ISO string).
The `agency`, `active` and `last_login` columns are not read by any
`api_routes.py` handler and are omitted. -/
structure User where
  id : Nat
  username : String
  email : String
  password_hash : String
  role : String
  created_at : String
  deriving Repr, DecidableEq

/-- Modelled from the spec: the `Document` ORM model imported by
`api_routes.py` from `.models` is not present under `src/` (the models
package only defines `User`); fields follow §3 "Resource record" and the
constructor calls in `upload_document` and `conftest.py`. -/
structure Document where
  id : Nat
  user_id : Nat
  filename : String
  content : String
  file_type : String
  size : Nat
  status : String
  deriving Repr, DecidableEq

/-- Modelled from the spec: the `Query` ORM model imported by
`api_routes.py` from `.models` is not present under `src/`; fields follow
§3 "Resource record" and the constructor call in `create_query`. -/
structure Query where
  id : Nat
  user_id : Nat
  question : String
  answer : Option String
  context : List Nat
  status : String
  created_at : String
  deriving Repr, DecidableEq

/-- Modelled from the spec: the `AuditLog` ORM model imported by
`api_routes.py` from `.models` is not present under `src/`; fields follow
§3 "Audit entry": nullable actor, action verb, resource type, outcome
(`status`), optional error detail.  The wall-clock timestamp column is not
modelled. -/
structure AuditLog where
  user_id : Option Nat
  action : String
  resource_type : String
  status : String
  details : Option String
  deriving Repr, DecidableEq

/-- The `audit_action` decorator (api_routes.py 30-62).  The wrapped
handler's outcome is an `Except`: `.ok` when it returns, `.error e` when it
raises an exception whose `str` is `e`.  The decorator returns the
handler's outcome unchanged together with the audit entries it committed.
`request_has_user` models `hasattr(request, 'user')` and `jwt_identity`
models `get_jwt_identity()`.  The audit write itself is modelled as
succeeding (§4.2 leaves the policy for a failing audit write open). -/
def audit_action {α : Type} (action_type resource_type : String)
    (request_has_user : Bool) (jwt_identity : Option Nat)
    (f : Except String α) : Except String α × List AuditLog :=
  let user_id := if request_has_user then jwt_identity else none
  match f with
  | .ok result =>
      (.ok result, [⟨user_id, action_type, resource_type, "success", none⟩])
  | .error e =>
      (.error e, [⟨user_id, action_type, resource_type, "error", some e⟩])

/-- Payload of a successful `POST /auth/register` (api_routes.py 97-102). -/
structure RegisterView where
  id : Nat
  username : String
  email : String
  access_token : String
  deriving Repr, DecidableEq

/-- A registration request body; `none` fields model absent JSON keys. -/
structure RegisterRequest where
  username : Option String
  email : Option String
  password : Option String
  role : Option String
  deriving Repr, DecidableEq

/-- The `register` handler (api_routes.py 67-110).  Only the *email* is
checked for duplication before the insert; a duplicate *username* slips
past the check and violates the database's `unique` constraint on the
username column (models/user.py line 12), raising `SQLAlchemyError`, which
the handler answers with a rollback and 500 "Registration failed".
`salt` is the random salt the library draws for the password hash and
`now` the creation timestamp. -/
def register (store : List User) (data : Option RegisterRequest)
    (next_id : Nat) (salt : String) (now : String) :
    ApiResult RegisterView × List User :=
  match data with
  | none => (.err 400 "Missing required fields", store)
  | some d =>
    match d.username, d.email, d.password with
    | some username, some email, some password =>
      if store.any (fun u => u.email == email) then
        (.err 409 "Email already exists", store)
      else if store.any (fun u => u.username == username) then
        (.err 500 "Registration failed", store)
      else
        let user : User :=
          ⟨next_id, username, email,
            PasswordManager.generate_password_hash salt password,
            d.role.getD "viewer", now⟩
        (.ok 201 ⟨user.id, user.username, user.email, create_access_token user.id⟩,
          store ++ [user])
    | _, _, _ => (.err 400 "Missing required fields", store)

/-- Payload of a successful `POST /auth/login` (api_routes.py 135-141). -/
structure LoginView where
  id : Nat
  username : String
  email : String
  role : String
  access_token : String
  deriving Repr, DecidableEq

/-- A login request body; `none` fields model absent JSON keys. -/
structure LoginRequest where
  email : Option String
  password : Option String
  deriving Repr, DecidableEq

/-- The `login` handler (api_routes.py 113-145): look the user up by email,
answer 401 when the user is absent or the password does not verify against
the stored hash, otherwise issue a token. -/
def login (store : List User) (data : Option LoginRequest) : ApiResult LoginView :=
  match data with
  | none => .err 400 "Missing credentials"
  | some d =>
    match d.email, d.password with
    | some email, some password =>
      match store.find? (fun u => u.email == email) with
      | none => .err 401 "Invalid credentials"
      | some user =>
        if PasswordManager.check_password_hash user.password_hash password then
          .ok 200 ⟨user.id, user.username, user.email, user.role,
            create_access_token user.id⟩
        else
          .err 401 "Invalid credentials"
    | _, _ => .err 400 "Missing credentials"

/-- The access token carried by a login response, if any: an `.err`
response issues none. -/
def issued_token : ApiResult LoginView → Option String
  | .ok _ v => some v.access_token
  | .err _ _ => none

/-- Payload of `GET /users/{user_id}` (api_routes.py 159-165). -/
structure UserView where
  id : Nat
  username : String
  email : String
  role : String
  created_at : String
  deriving Repr, DecidableEq

/-- The `get_user` handler body (api_routes.py 148-169): a primary-key
lookup followed by a 404 check.  The authenticated caller's identity is
never read — there is no ownership or role restriction. -/
def get_user (store : List User) (user_id : Nat) : ApiResult UserView :=
  match store.find? (fun u => u.id == user_id) with
  | none => .err 404 "User not found"
  | some user => .ok 200 ⟨user.id, user.username, user.email, user.role, user.created_at⟩

/-- The routed endpoint `GET /users/{user_id}`: `@jwt_required()` around
`get_user`.  The gate passes the caller identity, which the handler
ignores. -/
def get_user_route (store : List User) (jwt : Jwt) (user_id : Nat) : ApiResult UserView :=
  jwt_required_gate jwt (fun _caller => get_user store user_id)

/-- An uploaded multipart file: its `filename` and raw content. -/
structure UploadedFile where
  filename : String
  content : String
  deriving Repr, DecidableEq

/-- Payload the `upload_document` handler would answer on success
(api_routes.py 208-213). -/
structure UploadView where
  id : Nat
  filename : String
  status : String
  created_at : String
  deriving Repr, DecidableEq

/-- The `upload_document` handler (api_routes.py 174-218).  After the
missing-file and empty-filename checks, line 193 calls
`processor.process(file_content, file.filename)`; `DocumentProcessor`
(document_processor.py) defines `validate_document`, `process_document`
and others but no method named `process`, so the attribute lookup raises
`AttributeError` on every request that reaches it; the handler's blanket
`except` rolls back and answers 500 "Upload failed".  No validation ever
runs and no document is ever persisted. -/
def upload_document (file : Option UploadedFile) (_user_id : Nat)
    (docs : List Document) : ApiResult UploadView × List Document :=
  match file with
  | none => (.err 400 "No file provided", docs)
  | some f =>
    if f.filename == "" then (.err 400 "Empty filename", docs)
    else (.err 500 "Upload failed", docs)

/-- Payload of `GET /documents/{doc_id}` (api_routes.py 267-274); the
content is truncated to its first 500 characters. -/
structure DocumentView where
  id : Nat
  filename : String
  content : String
  status : String
  size : Nat
  deriving Repr, DecidableEq

/-- The `get_document` handler (api_routes.py 255-278): primary-key lookup,
then `if not document or document.user_id != user_id: 404`. -/
def get_document (user_id : Nat) (docs : List Document) (doc_id : Nat) :
    ApiResult DocumentView :=
  match docs.find? (fun d => d.id == doc_id) with
  | none => .err 404 "Document not found"
  | some document =>
    if document.user_id ≠ user_id then .err 404 "Document not found"
    else .ok 200 ⟨document.id, document.filename, document.content.take 500,
      document.status, document.size⟩

/-- Payload of `GET /queries/{query_id}` (api_routes.py 349-355). -/
structure QueryView where
  id : Nat
  question : String
  answer : Option String
  status : String
  deriving Repr, DecidableEq

/-- The `get_query` handler (api_routes.py 337-359): primary-key lookup,
then `if not query or query.user_id != user_id: 404`. -/
def get_query (user_id : Nat) (queries : List Query) (query_id : Nat) :
    ApiResult QueryView :=
  match queries.find? (fun q => q.id == query_id) with
  | none => .err 404 "Query not found"
  | some query =>
    if query.user_id ≠ user_id then .err 404 "Query not found"
    else .ok 200 ⟨query.id, query.question, query.answer, query.status⟩

end ApiRoutes

namespace AuthMiddleware

/-- The static role-to-permission table `PERMISSIONS`
(auth_middleware.py 24-29). -/
def PERMISSIONS : List (String × List String) :=
  [("admin", ["create", "read", "update", "delete", "manage_users", "view_analytics"]),
   ("moderator", ["create", "read", "update", "delete", "manage_comments"]),
   ("editor", ["create", "read", "update"]),
   ("viewer", ["read"])]

/-- Outcome of a guarded handler invocation: the 401 body
`error = Unauthorized`, the 403 body `error = Forbidden`, or the wrapped
handler's own response. -/
inductive GateResult (α : Type) where
  | unauthorized
  | forbidden
  | handled (response : α)
  deriving Repr, DecidableEq

/-- `AuthMiddleware.require_role` (auth_middleware.py 47-68): verify the
token (any failure, including a missing, malformed or expired token, is
caught and answered 401); read the role claim, defaulting to `viewer`;
answer 403 when the role is not in the allow-list; otherwise invoke the
handler.  A handler exception is caught by the same `except` clause and
answered 401, so the handler outcome is an `Except`. -/
def require_role {α : Type} (roles : List String) (f : Except String α)
    (jwt : Jwt) : GateResult α :=
  match jwt with
  | .fails _ => .unauthorized
  | .succeeds _user_id claims =>
    let user_role := (claims.lookup "role").getD "viewer"
    if !roles.contains user_role then
      .forbidden
    else
      match f with
      | .ok r => .handled r
      | .error _ => .unauthorized

/-- `AuthMiddleware.require_permission` (auth_middleware.py 70-91): as
`require_role`, but the extracted role's entry in the static `PERMISSIONS`
table must contain the required permission
(`permission not in PERMISSIONS.get(user_role, [])` answers 403). -/
def require_permission {α : Type} (permission : String) (f : Except String α)
    (jwt : Jwt) : GateResult α :=
  match jwt with
  | .fails _ => .unauthorized
  | .succeeds _user_id claims =>
    let user_role := (claims.lookup "role").getD "viewer"
    if !((PERMISSIONS.lookup user_role).getD []).contains permission then
      .forbidden
    else
      match f with
      | .ok r => .handled r
      | .error _ => .unauthorized

end AuthMiddleware

namespace DocumentProcessor

/-- `DocumentProcessor.SUPPORTED_FORMATS` (document_processor.py 44). -/
def SUPPORTED_FORMATS : List String :=
  [".pdf", ".docx", ".txt", ".xls", ".xlsx", ".csv", ".json"]

/-- `DocumentProcessor.validate_document` (document_processor.py 52-55):
false unless the lower-cased filename ends with a supported extension,
then a 100 MB size ceiling.  `filename.lower().endswith(fmt)` is taken at
the character-list level. -/
def validate_document (filename : String) (file_size : Nat) : Bool :=
  if !SUPPORTED_FORMATS.any (fun fmt => fmt.data.isSuffixOf (filename.data.map Char.toLower)) then
    false
  else decide (file_size ≤ 100 * 1024 * 1024)

/-- The upload validation rule as the spec words it (§4.4): extension in
the allow-list and size within the maximum. -/
def ValidUploadSpec (filename : String) (file_size : Nat) : Prop :=
  (∃ fmt ∈ SUPPORTED_FORMATS, fmt.data <:+ filename.data.map Char.toLower) ∧
  file_size ≤ 100 * 1024 * 1024

instance (filename : String) (file_size : Nat) :
    Decidable (ValidUploadSpec filename file_size) := by
  unfold ValidUploadSpec; infer_instance

end DocumentProcessor

namespace AppPy

/-- The `User` ORM model of `src/app.py` (lines 51-85): both the username
and the email column carry a `unique` constraint.  Unread columns are
omitted. -/
structure User where
  id : Nat
  username : String
  email : String
  password_hash : String
  agency : Option String
  role : String
  active : Bool
  deriving Repr, DecidableEq

/-- A registration request body for the `app.py` variant. -/
structure RegisterRequest where
  username : Option String
  email : Option String
  password : Option String
  agency : Option String
  deriving Repr, DecidableEq

/-- The `register` handler of the `app.py` variant (app.py 139-164).
`not data.get('username')` is also true for an *empty* string, so empty
fields are rejected as missing.  Only the *username* is checked for
duplication; a duplicate email violates the database's `unique`
constraint on the email column (app.py line 57) during commit, and the
blanket `except` answers 500 after a rollback. -/
def register (store : List User) (data : Option RegisterRequest)
    (next_id : Nat) (salt : String) : ApiResult Nat × List User :=
  match data with
  | none => (.err 400 "Missing fields", store)
  | some d =>
    match d.username, d.email, d.password with
    | some username, some email, some password =>
      if username == "" || email == "" || password == "" then
        (.err 400 "Missing fields", store)
      else if store.any (fun u => u.username == username) then
        (.err 409 "User exists", store)
      else if store.any (fun u => u.email == email) then
        (.err 500 "UNIQUE constraint failed: users.email", store)
      else
        let user : User :=
          ⟨next_id, username, email,
            PasswordManager.generate_password_hash salt password,
            d.agency, "analyst", true⟩
        (.ok 201 user.id, store ++ [user])
    | _, _, _ => (.err 400 "Missing fields", store)

end AppPy

namespace PolicyAnalyzer

/-- One entry of the static FAR policy table (policy_analyzer.py 29-54). -/
structure PolicyInfo where
  title : String
  effective_date : String
  requires_review : Bool
  cost_threshold : ℚ
  deriving Repr, DecidableEq

/-- `FARPolicyAnalyzer.policy_database` (policy_analyzer.py 29-54). -/
def policy_database : List (String × PolicyInfo) :=
  [("FAR_15_402", ⟨"Unsolicited Proposals", "2015-01-01", true, 500000⟩),
   ("FAR_16_505", ⟨"Ordering from GSA Schedules", "2018-06-01", true, 150000⟩),
   ("FAR_19_13", ⟨"HUBZone Small Business Program", "2020-01-01", true, 0⟩),
   ("FAR_23_3", ⟨"Sustainability Requirements", "2022-01-01", true, 5000⟩)]

/-- The project-description record handed to the analyzer (app.py 253-258);
optional fields model absent dictionary keys. -/
structure ProjectData where
  project_id : String
  agency : Option String
  contractor : Option String
  description : Option String
  deriving Repr, DecidableEq

/-- The `PolicyAnalysis` dataclass (policy_analyzer.py 11-20).  Float
arithmetic is modelled over the exact rationals. -/
structure PolicyAnalysis where
  policy_id : String
  compliance_level : String
  violations : List String
  recommendations : List String
  affected_cost : ℚ
  severity : String
  analysis_date : String
  deriving Repr, DecidableEq

/-- `FARPolicyAnalyzer._check_compliance` (policy_analyzer.py 81-87): at or
above the threshold the hard-coded answer is `PARTIAL`, below it
`COMPLIANT`; `NON_COMPLIANT` is never produced. -/
def check_compliance (cost : ℚ) (policy_info : PolicyInfo) : String :=
  if policy_info.cost_threshold ≤ cost then "PARTIAL" else "COMPLIANT"

/-- `FARPolicyAnalyzer._identify_violations` (policy_analyzer.py 89-103),
appending its three hard-coded violation kinds in source order. -/
def identify_violations (project_data : ProjectData) (policy_info : PolicyInfo) :
    List String :=
  (if project_data.agency == some "Department of Defense" then
    ["Missing CMMC Level 3 compliance for " ++ policy_info.title]
  else []) ++
  (if project_data.contractor == none then
    ["Contractor information not provided - Cannot verify small business status"]
  else []) ++
  ["Missing sustainable materials certification per FAR 23.3"]

/-- `FARPolicyAnalyzer._generate_recommendations` (policy_analyzer.py
105-120); the `in` substring tests become list-infix tests. -/
def generate_recommendations (violations : List String) (_policy_info : PolicyInfo) :
    List String :=
  (violations.filterMap (fun violation =>
    if "CMMC".data <:+: violation.data then
      some "Require contractor to achieve CMMC Level 3 certification within 60 days"
    else if "small business".data <:+: violation.data then
      some "Verify HUBZone small business certification through SBA database"
    else if "sustainable".data <:+: violation.data then
      some "Request materials certification from contractor - Allow 30 day cure period"
    else none)) ++
  ["Schedule policy review meeting with contracting officer"]

/-- Python's `round(x, 2)` on the exact rationals (tie behavior is
immaterial to every property below). -/
def round2 (x : ℚ) : ℚ := (round (x * 100) : ℤ) / 100

/-- `FARPolicyAnalyzer._calculate_affected_cost` (policy_analyzer.py
122-131): 12% per violation, capped at 45%, rounded to cents. -/
def calculate_affected_cost (total_cost : ℚ) (_policy_info : PolicyInfo)
    (violations : List String) : ℚ :=
  if violations.isEmpty then 0
  else round2 (total_cost * min (12 / 100 * violations.length) (45 / 100))

/-- `FARPolicyAnalyzer._assess_severity` (policy_analyzer.py 133-145). -/
def assess_severity (violations : List String) (affected_cost : ℚ) : String :=
  if violations.isEmpty then "LOW"
  else if 2000000 < affected_cost then "CRITICAL"
  else if 1000000 < affected_cost then "HIGH"
  else if 500000 < affected_cost then "MEDIUM"
  else "LOW"

/-- `FARPolicyAnalyzer.analyze_project` (policy_analyzer.py 56-79).
`project_cost` is the number the handler parses out of the budget string
(`float(budget.replace('$', '').replace('M', '000000'))`); the string
munging itself is not modelled — every property below holds for every
cost.  `analysis_date` stands for `datetime.now().isoformat()`. -/
def analyze_project (project_data : ProjectData) (project_cost : ℚ)
    (analysis_date : String) : List PolicyAnalysis :=
  policy_database.map (fun entry =>
    let policy_info := entry.2
    let violations := identify_violations project_data policy_info
    let affected_cost := calculate_affected_cost project_cost policy_info violations
    ⟨entry.1,
      check_compliance project_cost policy_info,
      violations,
      generate_recommendations violations policy_info,
      affected_cost,
      assess_severity violations affected_cost,
      analysis_date⟩)

/-- The `compliance_summary` object of the report
(policy_analyzer.py 159-163). -/
structure ComplianceSummary where
  fully_compliant : Nat
  partially_compliant : Nat
  non_compliant : Nat
  deriving Repr, DecidableEq

/-- One element of `detailed_analyses` (policy_analyzer.py 164-170). -/
structure DetailedAnalysis where
  policy_id : String
  compliance_level : String
  violations : List String
  severity : String
  affected_cost : ℚ
  deriving Repr, DecidableEq

/-- The report dictionary built by `generate_compliance_report`
(policy_analyzer.py 147-176), `report_date` being passed in for
`datetime.now()`. -/
structure ComplianceReport where
  report_date : String
  total_policies_reviewed : Nat
  total_violations : Nat
  critical_issues : Nat
  total_affected_cost : ℚ
  compliance_summary : ComplianceSummary
  detailed_analyses : List DetailedAnalysis
  requires_executive_review : Bool
  requiresExecutiveReview : Bool
  deriving Repr, DecidableEq

/-- `FARPolicyAnalyzer.generate_compliance_report`
(policy_analyzer.py 147-176). -/
def generate_compliance_report (analyses : List PolicyAnalysis)
    (report_date : String) : ComplianceReport :=
  let total_violations := (analyses.map (fun a => a.violations.length)).sum
  let critical_issues := analyses.countP (fun a => a.severity == "CRITICAL")
  let total_affected_cost := (analyses.map (fun a => a.affected_cost)).sum
  ⟨report_date,
    analyses.length,
    total_violations,
    critical_issues,
    round2 total_affected_cost,
    ⟨analyses.countP (fun a => a.compliance_level == "COMPLIANT"),
      analyses.countP (fun a => a.compliance_level == "PARTIAL"),
      analyses.countP (fun a => a.compliance_level == "NON_COMPLIANT")⟩,
    analyses.map (fun a =>
      ⟨a.policy_id, a.compliance_level, a.violations, a.severity, a.affected_cost⟩),
    decide (0 < critical_issues),
    decide (0 < critical_issues)⟩

end PolicyAnalyzer

/-! ## Helper lemmas -/

namespace PasswordManager

theorem length_toHexLE (w n : Nat) : (toHexLE w n).length = w := by
  induction w generalizing n with
  | zero => rfl
  | succ w ih => simp [toHexLE, ih]

theorem hexDigitChar_inj :
    ∀ m < 16, ∀ k < 16, hexDigitChar m = hexDigitChar k → m = k := by
  decide

theorem toHexLE_inj :
    ∀ w, ∀ a < 16 ^ w, ∀ b < 16 ^ w, toHexLE w a = toHexLE w b → a = b := by
  intro w
  induction w with
  | zero =>
    intro a ha b hb _
    simp only [pow_zero, Nat.lt_one_iff] at ha hb
    omega
  | succ w ih =>
    intro a ha b hb h
    simp only [toHexLE, List.cons.injEq] at h
    have h1 : a % 16 = b % 16 :=
      hexDigitChar_inj _ (Nat.mod_lt _ (by norm_num)) _ (Nat.mod_lt _ (by norm_num)) h.1
    have ha' : a / 16 < 16 ^ w := by
      rw [Nat.div_lt_iff_lt_mul (by norm_num)]
      calc a < 16 ^ (w + 1) := ha
        _ = 16 ^ w * 16 := by ring
    have hb' : b / 16 < 16 ^ w := by
      rw [Nat.div_lt_iff_lt_mul (by norm_num)]
      calc b < 16 ^ (w + 1) := hb
        _ = 16 ^ w * 16 := by ring
    have h2 := ih _ ha' _ hb' h.2
    omega

theorem length_hexEncode (l : List Char) : (hexEncode l).length = 8 * l.length := by
  induction l with
  | nil => rfl
  | cons c rest ih =>
    simp only [hexEncode, List.length_append, length_toHexLE, ih, List.length_cons]
    ring

theorem char_toNat_lt_pow (c : Char) : c.toNat < 16 ^ 8 := by
  have h := c.val.toNat_lt
  simp only [Char.toNat]
  norm_num at h ⊢
  omega

theorem char_toNat_injective (c d : Char) (h : c.toNat = d.toNat) : c = d :=
  Char.eq_of_val_eq (UInt32.ext h)

theorem hexEncode_inj : ∀ l₁ l₂ : List Char, hexEncode l₁ = hexEncode l₂ → l₁ = l₂ := by
  intro l₁
  induction l₁ with
  | nil =>
    intro l₂ h
    cases l₂ with
    | nil => rfl
    | cons d rest₂ =>
      exfalso
      have hl := congrArg List.length h
      simp [hexEncode, length_toHexLE, length_hexEncode] at hl
      omega
  | cons c rest ih =>
    intro l₂ h
    cases l₂ with
    | nil =>
      exfalso
      have hl := congrArg List.length h
      simp [hexEncode, length_toHexLE, length_hexEncode] at hl
    | cons d rest₂ =>
      simp only [hexEncode] at h
      obtain ⟨h1, h2⟩ :=
        List.append_inj h (by simp [length_toHexLE])
      have hc : c = d :=
        char_toNat_injective _ _
          (toHexLE_inj 8 _ (char_toNat_lt_pow c) _ (char_toNat_lt_pow d) h1)
      rw [hc, ih _ h2]

theorem hexDigitChar_ne_dollar : ∀ m < 16, hexDigitChar m ≠ '$' := by
  decide

theorem dollar_not_mem_toHexLE (w n : Nat) : '$' ∉ toHexLE w n := by
  induction w generalizing n with
  | zero => simp [toHexLE]
  | succ w ih =>
    simp only [toHexLE, List.mem_cons, not_or]
    exact ⟨Ne.symm (hexDigitChar_ne_dollar _ (Nat.mod_lt _ (by norm_num))), ih _⟩

theorem dollar_not_mem_hexEncode (l : List Char) : '$' ∉ hexEncode l := by
  induction l with
  | nil => simp [hexEncode]
  | cons c rest ih =>
    simp only [hexEncode, List.mem_append, not_or]
    exact ⟨dollar_not_mem_toHexLE 8 _, ih⟩

theorem splitOnChar_of_not_mem (sep : Char) (l : List Char) (h : sep ∉ l) :
    splitOnChar sep l = [l] := by
  induction l with
  | nil => rfl
  | cons c rest ih =>
    simp only [List.mem_cons, not_or] at h
    have hne : ¬c = sep := fun hc => h.1 hc.symm
    simp [splitOnChar, hne, ih h.2]

theorem splitOnChar_append (sep : Char) (l₁ l₂ : List Char) (h : sep ∉ l₁) :
    splitOnChar sep (l₁ ++ sep :: l₂) = l₁ :: splitOnChar sep l₂ := by
  induction l₁ with
  | nil => simp [splitOnChar]
  | cons c rest ih =>
    simp only [List.mem_cons, not_or] at h
    have hne : ¬c = sep := fun hc => h.1 hc.symm
    simp [splitOnChar, hne, ih h.2]

theorem split_generate (salt password : String) (hsalt : '$' ∉ salt.data) :
    splitOnChar '$' (generate_password_hash salt password).data =
      ["pbkdf2:sha256:600000".data, salt.data, pbkdf2_digest salt password] := by
  have hm : '$' ∉ "pbkdf2:sha256:600000".data := by decide
  have hd : '$' ∉ pbkdf2_digest salt password := by
    simp only [pbkdf2_digest, List.mem_append, not_or]
    exact ⟨dollar_not_mem_hexEncode _, dollar_not_mem_hexEncode _⟩
  show splitOnChar '$'
      ("pbkdf2:sha256:600000".data ++ '$' :: (salt.data ++ '$' :: pbkdf2_digest salt password)) = _
  rw [splitOnChar_append _ _ _ hm, splitOnChar_append _ _ _ hsalt,
    splitOnChar_of_not_mem _ _ hd]

end PasswordManager

namespace PolicyAnalyzer

theorem compliance_level_mem_analyze (project_data : ProjectData) (cost : ℚ)
    (analysis_date : String) (a : PolicyAnalysis)
    (ha : a ∈ analyze_project project_data cost analysis_date) :
    a.compliance_level = "COMPLIANT" ∨ a.compliance_level = "PARTIAL" := by
  simp only [analyze_project, List.mem_map] at ha
  obtain ⟨entry, _, rfl⟩ := ha
  simp only [check_compliance]
  split
  · right; rfl
  · left; rfl

theorem two_level_countP (l : List PolicyAnalysis)
    (h : ∀ a ∈ l, a.compliance_level = "COMPLIANT" ∨ a.compliance_level = "PARTIAL") :
    l.countP (fun a => a.compliance_level == "COMPLIANT") +
      l.countP (fun a => a.compliance_level == "PARTIAL") = l.length ∧
    l.countP (fun a => a.compliance_level == "NON_COMPLIANT") = 0 := by
  induction l with
  | nil => exact ⟨rfl, rfl⟩
  | cons a t ih =>
    have ht := ih (fun b hb => h b (List.mem_cons_of_mem _ hb))
    have ht1 := ht.1
    have ht2 := ht.2
    rcases h a (List.mem_cons_self _ _) with hc | hp
    · constructor
      · simp [List.countP_cons, hc]
        omega
      · simpa [List.countP_cons, hc] using ht2
    · constructor
      · simp [List.countP_cons, hp]
        omega
      · simpa [List.countP_cons, hp] using ht2

end PolicyAnalyzer

/-! ## Claim theorems -/

/-- Claim C1: an authenticated lookup of an owned resource
(`GET /documents/(id)` or `GET /queries/(id)`) by account `a`, when the
record exists but belongs to a different owner, answers exactly the 404
not-found error — hence neither the record's contents nor a 403. -/
theorem C1_cross_owner_lookup_not_found :
    (∀ (docs : List ApiRoutes.Document) (a doc_id : Nat) (d : ApiRoutes.Document),
      docs.find? (fun x => x.id == doc_id) = some d → d.user_id ≠ a →
      ApiRoutes.get_document a docs doc_id = .err 404 "Document not found") ∧
    (∀ (queries : List ApiRoutes.Query) (a query_id : Nat) (q : ApiRoutes.Query),
      queries.find? (fun x => x.id == query_id) = some q → q.user_id ≠ a →
      ApiRoutes.get_query a queries query_id = .err 404 "Query not found") := by
  constructor
  · intro docs a doc_id d hfind hne
    unfold ApiRoutes.get_document
    rw [hfind]
    simp [hne]
  · intro queries a query_id q hfind hne
    unfold ApiRoutes.get_query
    rw [hfind]
    simp [hne]

/-- Concrete instance of C1: owner 2's document and query, looked up by
account 1, are both answered 404. -/
theorem C1_cross_owner_lookup_not_found_witness :
    ApiRoutes.get_document 1 [⟨5, 2, "f.pdf", "secret contents", "pdf", 9, "processed"⟩] 5 =
      .err 404 "Document not found" ∧
    ApiRoutes.get_query 1 [⟨3, 2, "q?", some "a", [5], "completed", "t0"⟩] 3 =
      .err 404 "Query not found" :=
  ⟨C1_cross_owner_lookup_not_found.1 _ 1 5
      ⟨5, 2, "f.pdf", "secret contents", "pdf", 9, "processed"⟩ (by decide) (by decide),
   C1_cross_owner_lookup_not_found.2 _ 1 3
      ⟨3, 2, "q?", some "a", [5], "completed", "t0"⟩ (by decide) (by decide)⟩

/-- Claim C2: every invocation of a handler wrapped by `audit_action`
writes exactly one audit entry, the handler's outcome is passed through
unchanged, and the entry's outcome field matches: `success` on normal
return, `error` with the exception's string representation on raise. -/
theorem C2_audit_action_exactly_one_entry {α : Type}
    (action_type resource_type : String) (request_has_user : Bool)
    (jwt_identity : Option Nat) (f : Except String α) :
    (ApiRoutes.audit_action action_type resource_type request_has_user jwt_identity f).1 = f ∧
    (ApiRoutes.audit_action action_type resource_type request_has_user jwt_identity f).2.length = 1 ∧
    (∀ v : α, f = .ok v →
      (ApiRoutes.audit_action action_type resource_type request_has_user jwt_identity f).2.map
        ApiRoutes.AuditLog.status = ["success"]) ∧
    (∀ e : String, f = .error e →
      (ApiRoutes.audit_action action_type resource_type request_has_user jwt_identity f).2.map
          ApiRoutes.AuditLog.status = ["error"] ∧
        (ApiRoutes.audit_action action_type resource_type request_has_user jwt_identity f).2.map
          ApiRoutes.AuditLog.details = [some e]) := by
  cases f <;> simp [ApiRoutes.audit_action]

/-- Concrete instance of C2: a raising handler yields one `error` entry
carrying the exception text, a returning handler one `success` entry. -/
theorem C2_audit_action_exactly_one_entry_witness :
    (ApiRoutes.audit_action "CREATE" "USER" false none
        (Except.error "boom" : Except String Nat)).2.map ApiRoutes.AuditLog.status = ["error"] ∧
    (ApiRoutes.audit_action "LOGIN" "USER" false none
        (Except.ok 7 : Except String Nat)).2.map ApiRoutes.AuditLog.status = ["success"] :=
  ⟨((C2_audit_action_exactly_one_entry "CREATE" "USER" false none
      (Except.error "boom")).2.2.2 "boom" rfl).1,
   (C2_audit_action_exactly_one_entry "LOGIN" "USER" false none
      (Except.ok 7)).2.2.1 7 rfl⟩

/-- Claim C3: for every registered password, the stored hash never equals
the plaintext, verification succeeds against the original plaintext and
fails against any other string.  `salt` ranges over the salts werkzeug can
draw; its `gen_salt` alphabet (letters and digits) never contains the `$`
separator, which is the hypothesis. -/
theorem C3_password_hash_roundtrip (salt password other : String)
    (hsalt : '$' ∉ salt.data) (hother : other ≠ password) :
    PasswordManager.generate_password_hash salt password ≠ password ∧
    PasswordManager.check_password_hash
      (PasswordManager.generate_password_hash salt password) password = true ∧
    PasswordManager.check_password_hash
      (PasswordManager.generate_password_hash salt password) other = false := by
  refine ⟨?_, ?_, ?_⟩
  · intro h
    have hlen := congrArg List.length (congrArg String.data h)
    have hm : ("pbkdf2:sha256:600000".data).length = 20 := by decide
    simp only [PasswordManager.generate_password_hash,
      PasswordManager.pbkdf2_digest, List.length_append, List.length_cons,
      PasswordManager.length_hexEncode, hm] at hlen
    omega
  · unfold PasswordManager.check_password_hash
    rw [PasswordManager.split_generate _ _ hsalt]
    have hsaltmk : (⟨salt.data⟩ : String) = salt := rfl
    simp [hsaltmk]
  · unfold PasswordManager.check_password_hash
    rw [PasswordManager.split_generate _ _ hsalt]
    have hsaltmk : (⟨salt.data⟩ : String) = salt := rfl
    simp only [hsaltmk, beq_self_eq_true, Bool.true_and]
    rw [beq_eq_false_iff_ne]
    intro hdig
    apply hother
    have hdata : PasswordManager.hexEncode other.data =
        PasswordManager.hexEncode password.data := by
      have := hdig
      simp only [PasswordManager.pbkdf2_digest] at this
      exact List.append_cancel_left this
    have hod : other.data = password.data := PasswordManager.hexEncode_inj _ _ hdata
    cases other
    cases password
    exact congrArg String.mk hod

/-- Claim C4 counterexample: `register` (api_routes.py) checks only the
*email* for duplication.  Re-registering the existing *username* `alice`
under a fresh email passes the check, violates the database's unique
constraint on the username column, and is answered 500
"Registration failed" — not the conflict (409) the claim states. -/
theorem C4_duplicate_username_counterexample :
    ApiRoutes.register
        [⟨1, "alice", "a@x.com", "hash1", "viewer", "t0"⟩]
        (some ⟨some "alice", some "b@x.com", some "Str0ng!pass", none⟩)
        2 "QwZx12CvBn34MkLp" "t1" =
      (.err 500 "Registration failed",
        [⟨1, "alice", "a@x.com", "hash1", "viewer", "t0"⟩]) ∧
    (ApiRoutes.register
        [⟨1, "alice", "a@x.com", "hash1", "viewer", "t0"⟩]
        (some ⟨some "alice", some "b@x.com", some "Str0ng!pass", none⟩)
        2 "QwZx12CvBn34MkLp" "t1").1.statusCode ≠ 409 := by
  decide

/-- Claim C4 amended: a duplicate registration never creates a record, but
only one of the two duplicate kinds per variant is answered 409: the
api_routes variant answers 409 for a duplicate email and 500 (database
unique-constraint violation, rolled back) for a duplicate username under a
fresh email; the app.py variant mirrors this with username and email
swapped. -/
theorem C4_amended_register_duplicates
    (store : List ApiRoutes.User) (username email password : String)
    (role : Option String) (next_id : Nat) (salt now : String)
    (store2 : List AppPy.User) (agency : Option String)
    (hu : username ≠ "") (he : email ≠ "") (hp : password ≠ "") :
    (store.any (fun u => u.email == email) = true →
      ApiRoutes.register store (some ⟨some username, some email, some password, role⟩)
          next_id salt now =
        (.err 409 "Email already exists", store)) ∧
    (store.any (fun u => u.email == email) = false →
      store.any (fun u => u.username == username) = true →
      ApiRoutes.register store (some ⟨some username, some email, some password, role⟩)
          next_id salt now =
        (.err 500 "Registration failed", store)) ∧
    (store2.any (fun u => u.username == username) = true →
      AppPy.register store2 (some ⟨some username, some email, some password, agency⟩)
          next_id salt =
        (.err 409 "User exists", store2)) ∧
    (store2.any (fun u => u.username == username) = false →
      store2.any (fun u => u.email == email) = true →
      AppPy.register store2 (some ⟨some username, some email, some password, agency⟩)
          next_id salt =
        (.err 500 "UNIQUE constraint failed: users.email", store2)) := by
  refine ⟨?_, ?_, ?_, ?_⟩
  · intro hdup
    simp [ApiRoutes.register, hdup]
  · intro hmail hdup
    simp [ApiRoutes.register, hmail, hdup]
  · intro hdup
    simp [AppPy.register, hdup, hu, he, hp]
  · intro huser hdup
    simp [AppPy.register, huser, hdup, hu, he, hp]

/-- Concrete instance of the amended C4: duplicate email answers 409 in the
api_routes variant; duplicate username under a fresh email answers 500;
both leave the store unchanged. -/
theorem C4_amended_register_duplicates_witness :
    ApiRoutes.register
        [⟨1, "alice", "a@x.com", "hash1", "viewer", "t0"⟩]
        (some ⟨some "bob", some "a@x.com", some "Str0ng!pass", none⟩)
        2 "QwZx12CvBn34MkLp" "t1" =
      (.err 409 "Email already exists",
        [⟨1, "alice", "a@x.com", "hash1", "viewer", "t0"⟩]) ∧
    AppPy.register
        [⟨1, "alice", "a@x.com", "hash1", none, "analyst", true⟩]
        (some ⟨some "alice", some "b@x.com", some "Str0ng!pass", none⟩)
        2 "QwZx12CvBn34MkLp" =
      (.err 409 "User exists",
        [⟨1, "alice", "a@x.com", "hash1", none, "analyst", true⟩]) :=
  ⟨(C4_amended_register_duplicates
      [⟨1, "alice", "a@x.com", "hash1", "viewer", "t0"⟩] "bob" "a@x.com" "Str0ng!pass"
      none 2 "QwZx12CvBn34MkLp" "t1"
      [⟨1, "alice", "a@x.com", "hash1", none, "analyst", true⟩] none
      (by decide) (by decide) (by decide)).1 (by decide),
   (C4_amended_register_duplicates
      [⟨1, "alice", "a@x.com", "hash1", "viewer", "t0"⟩] "alice" "b@x.com" "Str0ng!pass"
      none 2 "QwZx12CvBn34MkLp" "t1"
      [⟨1, "alice", "a@x.com", "hash1", none, "analyst", true⟩] none
      (by decide) (by decide) (by decide)).2.2.1 (by decide)⟩

/-- Claim C5: a handler guarded by `require_role` or `require_permission`
answers 401 when token verification fails (missing, malformed or expired
token), 403 when the token is valid but the role claim (defaulting to
`viewer`) is outside the allow-list — respectively, when the role's entry
in the static `PERMISSIONS` table lacks the required permission — and
passes the handler's result through unchanged when the role suffices. -/
theorem C5_auth_gate_spec :
    (∀ (α : Type) (roles : List String) (f : Except String α) (reason : String),
      AuthMiddleware.require_role roles f (.fails reason) = .unauthorized) ∧
    (∀ (α : Type) (roles : List String) (f : Except String α) (uid : Nat)
        (claims : List (String × String)),
      roles.contains ((claims.lookup "role").getD "viewer") = false →
      AuthMiddleware.require_role roles f (.succeeds uid claims) = .forbidden) ∧
    (∀ (α : Type) (roles : List String) (r : α) (uid : Nat)
        (claims : List (String × String)),
      roles.contains ((claims.lookup "role").getD "viewer") = true →
      AuthMiddleware.require_role roles (.ok r) (.succeeds uid claims) = .handled r) ∧
    (∀ (α : Type) (permission : String) (f : Except String α) (reason : String),
      AuthMiddleware.require_permission permission f (.fails reason) = .unauthorized) ∧
    (∀ (α : Type) (permission : String) (f : Except String α) (uid : Nat)
        (claims : List (String × String)),
      ((AuthMiddleware.PERMISSIONS.lookup
          ((claims.lookup "role").getD "viewer")).getD []).contains permission = false →
      AuthMiddleware.require_permission permission f (.succeeds uid claims) = .forbidden) ∧
    (∀ (α : Type) (permission : String) (r : α) (uid : Nat)
        (claims : List (String × String)),
      ((AuthMiddleware.PERMISSIONS.lookup
          ((claims.lookup "role").getD "viewer")).getD []).contains permission = true →
      AuthMiddleware.require_permission permission (.ok r) (.succeeds uid claims) =
        .handled r) := by
  refine ⟨?_, ?_, ?_, ?_, ?_, ?_⟩
  · intro α roles f reason; rfl
  · intro α roles f uid claims h
    have h' : (claims.lookup "role").getD "viewer" ∉ roles := by simpa using h
    simp [AuthMiddleware.require_role, h']
  · intro α roles r uid claims h
    have h' : (claims.lookup "role").getD "viewer" ∈ roles := by simpa using h
    simp [AuthMiddleware.require_role, h']
  · intro α permission f reason; rfl
  · intro α permission f uid claims h
    have h' : permission ∉
        (AuthMiddleware.PERMISSIONS.lookup ((claims.lookup "role").getD "viewer")).getD [] := by
      simpa using h
    simp [AuthMiddleware.require_permission, h']
  · intro α permission r uid claims h
    have h' : permission ∈
        (AuthMiddleware.PERMISSIONS.lookup ((claims.lookup "role").getD "viewer")).getD [] := by
      simpa using h
    simp [AuthMiddleware.require_permission, h']

/-- Concrete instance of C5: an expired token is answered 401; a valid
`viewer` token is answered 403 where `admin` is required and where the
`delete` permission is required; an `admin` token passes the handler's
response through for both gate kinds. -/
theorem C5_auth_gate_spec_witness :
    AuthMiddleware.require_role ["admin"] (Except.ok 0 : Except String Nat)
      (.fails "Signature has expired") = .unauthorized ∧
    AuthMiddleware.require_role ["admin"] (Except.ok 0 : Except String Nat)
      (.succeeds 9 [("role", "viewer")]) = .forbidden ∧
    AuthMiddleware.require_role ["admin"] (Except.ok 42 : Except String Nat)
      (.succeeds 9 [("role", "admin")]) = .handled 42 ∧
    AuthMiddleware.require_permission "delete" (Except.ok 0 : Except String Nat)
      (.succeeds 9 [("role", "viewer")]) = .forbidden ∧
    AuthMiddleware.require_permission "delete" (Except.ok 42 : Except String Nat)
      (.succeeds 9 [("role", "admin")]) = .handled 42 :=
  ⟨C5_auth_gate_spec.1 Nat ["admin"] (Except.ok 0) "Signature has expired",
   C5_auth_gate_spec.2.1 Nat ["admin"] (Except.ok 0) 9 [("role", "viewer")] (by decide),
   C5_auth_gate_spec.2.2.1 Nat ["admin"] 42 9 [("role", "admin")] (by decide),
   C5_auth_gate_spec.2.2.2.2.1 Nat "delete" (Except.ok 0) 9 [("role", "viewer")] (by decide),
   C5_auth_gate_spec.2.2.2.2.2 Nat "delete" 42 9 [("role", "admin")] (by decide)⟩

/-- Claim C6 (code-bug evidence): `validate_document` itself implements
exactly the allow-list and size rule, but `upload_document` never reaches
it — line 193 calls the nonexistent method `processor.process`, so every
upload, with a disallowed extension or a perfectly valid one, is answered
500 "Upload failed" instead of a validation error, and no document record
is persisted either way. -/
theorem C6_upload_validation_never_runs :
    DocumentProcessor.validate_document "malware.exe" 1024 = false ∧
    DocumentProcessor.validate_document "report.pdf" 1024 = true ∧
    DocumentProcessor.validate_document "big.pdf" (100 * 1024 * 1024 + 1) = false ∧
    ApiRoutes.upload_document (some ⟨"malware.exe", "MZbinary"⟩) 7 [] =
      (.err 500 "Upload failed", []) ∧
    ApiRoutes.upload_document (some ⟨"report.pdf", "hello"⟩) 7 [] =
      (.err 500 "Upload failed", []) := by
  decide

/-- Claim C7: a login attempt naming an existing account with a password
that does not verify against the stored hash is answered 401 and issues no
access token. -/
theorem C7_login_wrong_password_unauthorized
    (store : List ApiRoutes.User) (email password : String) (user : ApiRoutes.User)
    (hfind : store.find? (fun u => u.email == email) = some user)
    (hpw : PasswordManager.check_password_hash user.password_hash password = false) :
    ApiRoutes.login store (some ⟨some email, some password⟩) =
      .err 401 "Invalid credentials" ∧
    ApiRoutes.issued_token
      (ApiRoutes.login store (some ⟨some email, some password⟩)) = none := by
  have hlogin : ApiRoutes.login store (some ⟨some email, some password⟩) =
      .err 401 "Invalid credentials" := by
    simp [ApiRoutes.login, hfind, hpw]
  exact ⟨hlogin, by rw [hlogin]; rfl⟩

set_option maxRecDepth 8192 in
/-- Concrete instance of C7: `alice` exists with the hash of
`Secr3t!pass`; logging in with `WrongPassword` is answered 401 with no
token. -/
theorem C7_login_wrong_password_unauthorized_witness :
    ApiRoutes.login
        [⟨1, "alice", "a@x.com",
          PasswordManager.generate_password_hash "QwZx12CvBn34MkLp" "Secr3t!pass",
          "viewer", "t0"⟩]
        (some ⟨some "a@x.com", some "WrongPassword"⟩) =
      .err 401 "Invalid credentials" :=
  (C7_login_wrong_password_unauthorized _ "a@x.com" "WrongPassword"
    ⟨1, "alice", "a@x.com",
      PasswordManager.generate_password_hash "QwZx12CvBn34MkLp" "Secr3t!pass",
      "viewer", "t0"⟩
    (by decide) (by decide)).1

/-- Concrete instance of C3 at a werkzeug-shaped salt. -/
theorem C3_password_hash_roundtrip_witness :
    PasswordManager.generate_password_hash "QwZx12CvBn34MkLp" "Secr3t!pass" ≠ "Secr3t!pass" ∧
    PasswordManager.check_password_hash
      (PasswordManager.generate_password_hash "QwZx12CvBn34MkLp" "Secr3t!pass")
      "Secr3t!pass" = true ∧
    PasswordManager.check_password_hash
      (PasswordManager.generate_password_hash "QwZx12CvBn34MkLp" "Secr3t!pass")
      "WrongPassword" = false :=
  C3_password_hash_roundtrip _ _ _ (by decide) (by decide)

/-- Claim C8: `is_password_strong` holds exactly when the password has
length at least 8, contains an upper-case letter, a digit, and a character
of the fixed symbol set — a plain boolean, no partial-credit scoring. -/
theorem C8_is_password_strong_iff (password : String) :
    PasswordManager.is_password_strong password = true ↔
      PasswordManager.StrongSpec password := by
  unfold PasswordManager.is_password_strong PasswordManager.StrongSpec
  split_ifs with h1 h2 h3 h4
  · simp only [false_iff]
    intro hs
    exact absurd hs.1 (by omega)
  · simp only [Bool.not_eq_true', List.any_eq_false] at h2
    simp only [false_iff]
    intro hs
    obtain ⟨c, hc, hu⟩ := hs.2.1
    exact h2 c hc hu
  · simp only [Bool.not_eq_true', List.any_eq_false] at h3
    simp only [false_iff]
    intro hs
    obtain ⟨c, hc, hd⟩ := hs.2.2.1
    exact h3 c hc hd
  · simp only [Bool.not_eq_true', List.any_eq_false] at h4
    simp only [false_iff]
    intro hs
    obtain ⟨c, hc, hm⟩ := hs.2.2.2
    exact h4 c hc (List.elem_iff.mpr hm)
  · simp only [Bool.not_eq_true', Bool.not_eq_false] at h2 h3 h4
    rw [List.any_eq_true] at h2 h3 h4
    simp only [true_iff]
    obtain ⟨c4, hc4, hm4⟩ := h4
    exact ⟨by omega, h2, h3, ⟨c4, hc4, List.elem_iff.mp hm4⟩⟩

/-- Concrete instance of C8 in both directions. -/
theorem C8_is_password_strong_iff_witness :
    PasswordManager.StrongSpec "TestPass123!" ∧ ¬PasswordManager.StrongSpec "weak" :=
  ⟨(C8_is_password_strong_iff "TestPass123!").mp (by decide),
   fun hs => by
    have hw := (C8_is_password_strong_iff "weak").mpr hs
    exact absurd hw (by decide)⟩

/-- Claim C9: for any authenticated caller, `GET /users/(user_id)` on an
existing account answers that account's full profile — email included —
and the response does not depend on who the caller is. -/
theorem C9_get_user_no_ownership_check
    (store : List ApiRoutes.User) (user_id : Nat) (u : ApiRoutes.User)
    (a a' : Nat) (claims claims' : List (String × String))
    (hfind : store.find? (fun x => x.id == user_id) = some u) :
    ApiRoutes.get_user_route store (.succeeds a claims) user_id =
      .ok 200 ⟨u.id, u.username, u.email, u.role, u.created_at⟩ ∧
    ApiRoutes.get_user_route store (.succeeds a claims) user_id =
      ApiRoutes.get_user_route store (.succeeds a' claims') user_id := by
  constructor <;>
    simp [ApiRoutes.get_user_route, jwt_required_gate, ApiRoutes.get_user, hfind]

/-- Concrete instance of C9: caller 1 reads user 2's profile, email
included, and caller 3 is answered identically. -/
theorem C9_get_user_no_ownership_check_witness :
    ApiRoutes.get_user_route [⟨2, "bob", "bob@x.com", "h", "viewer", "t0"⟩]
        (.succeeds 1 []) 2 = .ok 200 ⟨2, "bob", "bob@x.com", "viewer", "t0"⟩ ∧
    ApiRoutes.get_user_route [⟨2, "bob", "bob@x.com", "h", "viewer", "t0"⟩]
        (.succeeds 1 []) 2 =
      ApiRoutes.get_user_route [⟨2, "bob", "bob@x.com", "h", "viewer", "t0"⟩]
        (.succeeds 3 [("role", "admin")]) 2 :=
  C9_get_user_no_ownership_check _ 2 ⟨2, "bob", "bob@x.com", "h", "viewer", "t0"⟩
    1 3 [] [("role", "admin")] (by decide)

/-- Claim C10: for every report generated from `analyze_project` output,
the three `compliance_summary` counters sum to `total_policies_reviewed`,
`non_compliant` is 0 (the compliance check only yields `COMPLIANT` or
`PARTIAL`), and the duplicated executive-review flags are equal. -/
theorem C10_compliance_report_invariants (project_data : PolicyAnalyzer.ProjectData)
    (project_cost : ℚ) (analysis_date report_date : String) :
    (PolicyAnalyzer.generate_compliance_report
        (PolicyAnalyzer.analyze_project project_data project_cost analysis_date)
        report_date).compliance_summary.fully_compliant +
      (PolicyAnalyzer.generate_compliance_report
        (PolicyAnalyzer.analyze_project project_data project_cost analysis_date)
        report_date).compliance_summary.partially_compliant +
      (PolicyAnalyzer.generate_compliance_report
        (PolicyAnalyzer.analyze_project project_data project_cost analysis_date)
        report_date).compliance_summary.non_compliant =
      (PolicyAnalyzer.generate_compliance_report
        (PolicyAnalyzer.analyze_project project_data project_cost analysis_date)
        report_date).total_policies_reviewed ∧
    (PolicyAnalyzer.generate_compliance_report
        (PolicyAnalyzer.analyze_project project_data project_cost analysis_date)
        report_date).compliance_summary.non_compliant = 0 ∧
    (PolicyAnalyzer.generate_compliance_report
        (PolicyAnalyzer.analyze_project project_data project_cost analysis_date)
        report_date).requires_executive_review =
      (PolicyAnalyzer.generate_compliance_report
        (PolicyAnalyzer.analyze_project project_data project_cost analysis_date)
        report_date).requiresExecutiveReview := by
  have h := PolicyAnalyzer.two_level_countP
    (PolicyAnalyzer.analyze_project project_data project_cost analysis_date)
    (fun a ha =>
      PolicyAnalyzer.compliance_level_mem_analyze project_data project_cost
        analysis_date a ha)
  have h1 := h.1
  have h2 := h.2
  refine ⟨?_, h2, rfl⟩
  show (PolicyAnalyzer.analyze_project project_data project_cost analysis_date).countP
        (fun a => a.compliance_level == "COMPLIANT") +
      (PolicyAnalyzer.analyze_project project_data project_cost analysis_date).countP
        (fun a => a.compliance_level == "PARTIAL") +
      (PolicyAnalyzer.analyze_project project_data project_cost analysis_date).countP
        (fun a => a.compliance_level == "NON_COMPLIANT") =
      (PolicyAnalyzer.analyze_project project_data project_cost analysis_date).length
  omega

end LLMP
